import Mathlib

/-!
# Verification of the Sev-1 Incident Meeting Orchestrator

A shallow embedding of the `sev_one_ticket` package (`app.py`, `agents.py`,
`meeting.py`, `email_utils.py`).  Pure computations (URL building, recipient
computation) become Lean functions; the stateful parts (the per-incident task
map, the side effects performed by `handle_incident` before it returns, the
exit paths of the bot coroutine) become explicit state passing and effect
lists.  Every definition is translated from the Python source; definitions
whose name matches a Python function model that function.
-/

set_option autoImplicit false

namespace SevOneTicket

/-! ## Strings and URL encoding (`meeting.py`)

`JitsiMeeting.room_url` builds the join URL with Python's
`urllib.parse.quote_plus`, which operates on the UTF-8 encoding of the room
name: bytes that are ASCII alphanumerics or one of `_ . - ~` pass through,
the space byte becomes `+`, and every other byte becomes `%` followed by two
uppercase hex digits. -/

/-- UTF-8 encoding of a single character (the byte sequence Python's
`str.encode('utf-8')` produces for it). -/
def utf8Bytes (c : Char) : List Nat :=
  let n := c.toNat
  if n < 0x80 then [n]
  else if n < 0x800 then
    [0xC0 + n / 0x40, 0x80 + n % 0x40]
  else if n < 0x10000 then
    [0xE0 + n / 0x1000, 0x80 + (n / 0x40) % 0x40, 0x80 + n % 0x40]
  else
    [0xF0 + n / 0x40000, 0x80 + (n / 0x1000) % 0x40, 0x80 + (n / 0x40) % 0x40,
      0x80 + n % 0x40]

/-- Uppercase hex digit for a value below 16, as used by `urllib.parse.quote`. -/
def hexDigit (n : Nat) : Char :=
  if n < 10 then Char.ofNat (48 + n) else Char.ofNat (55 + n)

/-- How `urllib.parse.quote_plus` renders one byte: ASCII alphanumerics and
`_ . - ~` are safe, the space byte becomes `+`, everything else is
percent-escaped with uppercase hex. -/
def quotePlusByte (b : Nat) : List Char :=
  if (65 ≤ b ∧ b ≤ 90) ∨ (97 ≤ b ∧ b ≤ 122) ∨ (48 ≤ b ∧ b ≤ 57)
      ∨ b = 95 ∨ b = 46 ∨ b = 45 ∨ b = 126 then
    [Char.ofNat b]
  else if b = 32 then ['+']
  else
    ['%', hexDigit (b / 16), hexDigit (b % 16)]

/-- Python's `urllib.parse.quote_plus` applied to a string (UTF-8 bytes,
each rendered by `quotePlusByte`). -/
def quote_plus (s : String) : String :=
  ⟨((s.data.map utf8Bytes).flatten.map quotePlusByte).flatten⟩

/-- Python's `str.rstrip("/")`: drop every trailing `/`. -/
def rstripSlash (s : String) : String :=
  ⟨(s.data.reverse.dropWhile (· = '/')).reverse⟩

/-- `meeting.py`: `class JitsiMeeting`, holding the base URL with trailing
slashes stripped by `__init__`. -/
structure JitsiMeeting where
  jitsi_base : String
  deriving Repr, DecidableEq

/-- `JitsiMeeting.__init__`: `self.jitsi_base = jitsi_base.rstrip("/")`. -/
def JitsiMeeting.init (jitsi_base : String) : JitsiMeeting :=
  ⟨rstripSlash jitsi_base⟩

/-- The query-parameter suffix `qp` appended by `room_url`. -/
def muteQuery : String :=
  "?config.startWithAudioMuted=true&config.startWithVideoMuted=true"

/-- `JitsiMeeting.room_url`:
`f"{self.jitsi_base}/{quote_plus(room_name)}{qp}"`. -/
def JitsiMeeting.room_url (m : JitsiMeeting) (room_name : String) : String :=
  m.jitsi_base ++ "/" ++ quote_plus room_name ++ muteQuery

/-- The join-URL formula as the specification states it: the base
meeting-service URL, then `/`, then the URL-encoded room id, then the literal
mute-defaults query string.  Stated separately from
`JitsiMeeting.room_url` so the code can be compared against it. -/
def joinUrlSpec (base room_id : String) : String :=
  base ++ "/" ++ quote_plus room_id
    ++ "?config.startWithAudioMuted=true&config.startWithVideoMuted=true"

/-! ## Configuration and payloads (`app.py`, `agents.py`, `email_utils.py`)

The modules read their configuration from the environment at import time:
`JITSI_BASE`, `DEV_EMAILS` (a comma-separated list, split, stripped and
filtered of empties), `FROM_NAME`, `BOT_DISPLAY_NAME`, `SMTP_HOST`,
`SMTP_PORT`, `SMTP_USER`, `SMTP_PASSWORD`.  `SMTP_USER`/`SMTP_PASSWORD` use
`os.environ.get` with no default, so they may be absent (`None`). -/

/-- `agents.py`: `DEV_EMAILS = [e.strip() for e in
os.environ.get("DEV_EMAILS", "").split(",") if e.strip()]`. -/
def parseDevEmails (raw : String) : List String :=
  ((raw.splitOn ",").map String.trim).filter (· ≠ "")

/-- The process configuration: one field per module-level environment
constant used by the orchestration path. -/
structure Config where
  jitsiBase : String
  devEmails : List String
  fromName : String
  botDisplayName : String
  smtpHost : String
  smtpPort : Nat
  smtpUser : Option String
  smtpPassword : Option String
  deriving Repr, DecidableEq

/-- Python truthiness of an optional string: `None` and `""` are falsy.
This is the test `if not SMTP_USER`, `if reporter:` perform. -/
def optTruthy : Option String → Bool
  | none => false
  | some s => !(s == "")

/-- `app.py`: `class TicketPayload(BaseModel)` — the intake payload.
`handle_incident` receives `payload.dict()` of this model. -/
structure TicketPayload where
  ticket_id : String
  severity : Int
  summary : String
  reporter_email : Option String
  deriving Repr, DecidableEq

/-! ## Observable side effects

`handle_incident` is an `async def` containing no `await`: everything it
does before returning is synchronous.  We record, in program order, the
externally observable actions it performs before its return:
`asyncio.create_task(...)` (spawning the bot coroutine — only the spawn is
synchronous; the coroutine body does not run before the next suspension
point, and `handle_incident` never awaits it), the call into
`send_invites_with_ics` when recipients exist, and the SMTP network
transmission performed inside `send_email` when credentials are present. -/

/-- One synchronous observable action of the orchestration path. -/
inductive Effect where
  /-- `asyncio.create_task(self.jitsi.start_bot_and_hold(room_name, ...))`:
  a bot task with this id is spawned for this room, not awaited. -/
  | spawnBotTask (taskId : Nat) (roomName : String) (displayName : String)
  /-- The `else` branch calls `send_invites_with_ics(...)` with this
  attendee list (the invite dispatcher is invoked). -/
  | inviteDispatchCall (recipients : List String)
  /-- `send_email` reached the `smtplib.SMTP(...)` block: an SMTP network
  transmission to these recipients completed. -/
  | smtpSend (host : String) (port : Nat) (recipients : List String)
  deriving Repr, DecidableEq

/-! ## `email_utils.py` -/

/-- Result of `send_email`: either the credential guard returned early
(a logged no-op) or the message was transmitted over SMTP. -/
inductive SendResult where
  | skippedNoCreds
  | sent
  deriving Repr, DecidableEq

/-- `email_utils.send_email`: `if not SMTP_USER or not SMTP_PASSWORD:
print(...); return` — otherwise build the message and transmit it over one
SMTP connection.  Total (the guard path raises nothing); returns the result
together with the network effects performed. -/
def send_email (cfg : Config) (recipients : List String) :
    SendResult × List Effect :=
  if !optTruthy cfg.smtpUser || !optTruthy cfg.smtpPassword then
    (SendResult.skippedNoCreds, [])
  else
    (SendResult.sent, [Effect.smtpSend cfg.smtpHost cfg.smtpPort recipients])

/-- `email_utils.send_invites_with_ics`: builds the ICS attachment (pure
payload construction, no observable effect) and calls `send_email` with the
attendee list as recipients. -/
def send_invites_with_ics (cfg : Config) (attendees : List String) :
    SendResult × List Effect :=
  send_email cfg attendees

/-! ## `agents.py`: the responder agent -/

/-- The mutable state of `IncidentResponderAgent`, plus the bookkeeping a
shallow embedding needs for `asyncio` tasks: `botTasks` is the
`Dict[str, asyncio.Task]` (task identified by a number), `running` lists
every task id that has been spawned and never cancelled (the code contains
no `cancel()` call, so tasks only ever enter this list), and `nextTask` is
the id the next `create_task` will allocate. -/
structure AgentState where
  botTasks : List (String × Nat)
  running : List Nat
  nextTask : Nat
  deriving Repr, DecidableEq

/-- The empty agent state built by `IncidentResponderAgent.__init__`
(`self.bot_tasks = {}`). -/
def AgentState.initial : AgentState :=
  ⟨[], [], 0⟩

/-- Python dict assignment `m[k] = v`: replace the value of an existing key,
else append the new binding. -/
def assocSet (m : List (String × Nat)) (k : String) (v : Nat) :
    List (String × Nat) :=
  match m with
  | [] => [(k, v)]
  | (k', v') :: rest =>
    if k' = k then (k, v) :: rest else (k', v') :: assocSet rest k v

/-- Python dict lookup `m.get(k)`. -/
def assocGet (m : List (String × Nat)) (k : String) : Option Nat :=
  match m with
  | [] => none
  | (k', v') :: rest => if k' = k then some v' else assocGet rest k

/-- `agents.py`: the recipient computation of `handle_incident`:
`recipients = list(DEV_EMAILS); if reporter: recipients.append(reporter)`. -/
def recipientsOf (cfg : Config) (reporter : Option String) : List String :=
  cfg.devEmails ++ (if optTruthy reporter then [reporter.getD ""] else [])

/-- `IncidentResponderAgent.handle_incident(payload)`.  `token` is the value
of `secrets.token_hex(4)` drawn for this call (eight hex characters).  The
function: builds `room_name = f"{ticket_id}-{token}"` and its URL, spawns
the bot task and stores it under `self.bot_tasks[ticket_id]` (plain
assignment), computes the recipients, and — unless they are empty — calls
`send_invites_with_ics` synchronously.  Returns the new agent state and the
synchronous effects in program order. -/
def handle_incident (cfg : Config) (st : AgentState) (payload : TicketPayload)
    (token : String) : AgentState × List Effect :=
  let room_name := payload.ticket_id ++ "-" ++ token
  let tid := st.nextTask
  let st' : AgentState :=
    { botTasks := assocSet st.botTasks payload.ticket_id tid
      running := st.running ++ [tid]
      nextTask := st.nextTask + 1 }
  let recipients := recipientsOf cfg payload.reporter_email
  let inviteEffects :=
    if recipients.isEmpty then []
    else Effect.inviteDispatchCall recipients ::
      (send_invites_with_ics cfg recipients).2
  (st', Effect.spawnBotTask tid room_name cfg.botDisplayName :: inviteEffects)

/-! ## `app.py`: the intake endpoint -/

/-- The JSON acknowledgment returned by `create_ticket`. -/
structure TicketResponse where
  status : String
  message : String
  deriving Repr, DecidableEq

/-- `app.py`: `create_ticket(payload, background)` — on `severity == 1`
schedule `responder.handle_incident(payload.dict())` as a background task
and acknowledge; otherwise acknowledge as ignored and do nothing.  The
second component is the list of payloads handed to
`background.add_task(responder.handle_incident, ...)`; the endpoint itself
performs no other effect. -/
def create_ticket (payload : TicketPayload) :
    TicketResponse × List TicketPayload :=
  if payload.severity = 1 then
    (⟨"accepted", "Sev-1 received, agent triggered."⟩, [payload])
  else
    (⟨"ignored", "Only Sev-1 triggers meeting."⟩, [])

/-! ## `meeting.py`: `start_bot_and_hold`

The coroutine is a straight-line sequence of awaits:

```
browser = await launch({...})                 -- not guarded
page = await browser.newPage()                -- not guarded
page.setDefaultNavigationTimeout(60000)
await page.goto(url)                          -- not guarded (can time out)
await asyncio.sleep(3)
try: evaluate; reload; sleep(2)
except Exception: print(...)                  -- swallowed
try: evaluate (mute clicks)
except Exception: print(...)                  -- swallowed
try:
    while True: await asyncio.sleep(60)       -- hold
except asyncio.CancelledError: print(...)
finally: await browser.close()
```

The only `finally` that closes the browser wraps the hold loop alone.  We
embed one run of the coroutine as a function of its environment: which
await, if any, is the first to raise, and (on the hold path) how many
cancellation requests eventually arrive.  The hold loop never exits on its
own, so a run that reaches it terminates only through cancellation; an
environment on the hold path therefore carries at least one cancel. -/

/-- The environment of one run of `start_bot_and_hold`: the first abnormal
event, if any.  `cleanRun extraCancels` is a run in which every await before
the hold loop succeeds and cancellation is requested `1 + extraCancels`
times once the coroutine is holding. -/
inductive BotEnv where
  /-- `launch({...})` itself raises; no browser exists. -/
  | launchFails
  /-- `browser.newPage()` raises after the browser was launched. -/
  | newPageFails
  /-- `page.goto(url)` raises (navigation error or the 60000 ms timeout). -/
  | gotoFails
  /-- `page.evaluate`/`page.reload` in the display-name block raise; the
  `except Exception` swallows it and the run continues. -/
  | prefsFail
  /-- the mute-click `page.evaluate` raises; swallowed likewise. -/
  | muteFails
  /-- every await succeeds; the task is cancelled while holding. -/
  | cleanRun (extraCancels : Nat)
  deriving Repr, DecidableEq

/-- What one run of `start_bot_and_hold` did: whether the browser was
launched, how many times `browser.close()` ran, whether an exception
escaped the coroutine, and whether the hold loop was entered. -/
structure BotRun where
  browserAcquired : Bool
  releases : Nat
  raised : Bool
  reachedHold : Bool
  deriving Repr, DecidableEq

/-- One run of `JitsiMeeting.start_bot_and_hold` under environment `env`,
flattening the straight-line control flow above.  An exception in `launch`
leaves nothing acquired; an exception in `newPage` or `goto` escapes with
the browser still open, because no `try`/`finally` encloses those awaits;
the two preference blocks swallow their exceptions; a run that reaches the
hold loop ends through `CancelledError`, whose handler falls into the one
`finally`, closing the browser exactly once however many cancellation
requests were made. -/
def start_bot_and_hold (env : BotEnv) : BotRun :=
  match env with
  | BotEnv.launchFails =>
    { browserAcquired := false, releases := 0, raised := true,
      reachedHold := false }
  | BotEnv.newPageFails =>
    { browserAcquired := true, releases := 0, raised := true,
      reachedHold := false }
  | BotEnv.gotoFails =>
    { browserAcquired := true, releases := 0, raised := true,
      reachedHold := false }
  | BotEnv.prefsFail =>
    { browserAcquired := true, releases := 1, raised := false,
      reachedHold := true }
  | BotEnv.muteFails =>
    { browserAcquired := true, releases := 1, raised := false,
      reachedHold := true }
  | BotEnv.cleanRun _ =>
    { browserAcquired := true, releases := 1, raised := false,
      reachedHold := true }

/-! ## Helper lemmas -/

/-- Dict assignment followed by lookup of the same key returns the new
value. -/
theorem assocGet_assocSet_self (m : List (String × Nat)) (k : String)
    (v : Nat) : assocGet (assocSet m k v) k = some v := by
  induction m with
  | nil => simp [assocSet, assocGet]
  | cons hd tl ih =>
    obtain ⟨k', v'⟩ := hd
    by_cases h : k' = k
    · simp [assocSet, assocGet, h]
    · simp [assocSet, assocGet, h, ih]

/-- `handle_incident` always spawns the bot task as its first synchronous
action, whatever the rest of the call does. -/
theorem handle_incident_spawn_head (cfg : Config) (st : AgentState)
    (p : TicketPayload) (token : String) :
    ∃ tail, (handle_incident cfg st p token).2 =
      Effect.spawnBotTask st.nextTask (p.ticket_id ++ "-" ++ token)
        cfg.botDisplayName :: tail := by
  refine ⟨if (recipientsOf cfg p.reporter_email).isEmpty then []
    else Effect.inviteDispatchCall (recipientsOf cfg p.reporter_email) ::
      (send_invites_with_ics cfg (recipientsOf cfg p.reporter_email)).2, ?_⟩
  rfl

/-- `handle_incident` updates the agent state by storing the fresh task id
under the payload's ticket id, appending it to the running tasks, and
bumping the counter — independently of the invite branch. -/
theorem handle_incident_state (cfg : Config) (st : AgentState)
    (p : TicketPayload) (token : String) :
    (handle_incident cfg st p token).1 =
      { botTasks := assocSet st.botTasks p.ticket_id st.nextTask
        running := st.running ++ [st.nextTask]
        nextTask := st.nextTask + 1 } := rfl

/-! ## Concrete fixtures

Concrete configurations and payloads used to evaluate the definitions on
closed inputs (the spec's own scenario: responders `["b@x.com"]`, reporter
`"a@x.com"`, incident `INC1001`). -/

/-- A fully configured process: responders `["b@x.com"]`, SMTP credentials
present. -/
def cfgTest : Config :=
  { jitsiBase := "https://meet.jit.si", devEmails := ["b@x.com"]
    fromName := "Incident Bot", botDisplayName := "IncidentBot"
    smtpHost := "smtp.gmail.com", smtpPort := 587
    smtpUser := some "bot@x.com", smtpPassword := some "pw" }

/-- `cfgTest` with the SMTP credentials absent (`SMTP_USER`/`SMTP_PASSWORD`
unset). -/
def cfgNoCreds : Config :=
  { cfgTest with smtpUser := none, smtpPassword := none }

/-- `cfgTest` with no configured responders. -/
def cfgNoResponders : Config :=
  { cfgTest with devEmails := [] }

/-- A configuration whose static responder list already contains the
reporter's address. -/
def cfgDup : Config :=
  { cfgTest with devEmails := ["a@x.com"] }

/-- The spec's scenario payload: `INC1001`, severity 1, reporter
`a@x.com`. -/
def payloadINC1001 : TicketPayload :=
  { ticket_id := "INC1001", severity := 1, summary := "DB cluster down"
    reporter_email := some "a@x.com" }

/-- A severity-1 payload with no reporter address. -/
def payloadNoReporter : TicketPayload :=
  { ticket_id := "INC1", severity := 1, summary := "db down"
    reporter_email := none }

/-! ## Claims -/

/-- C1, counterexample.  The claim says a second registration for an
incident id whose first session is still non-terminal yields
`DuplicateSession` and keeps the existing session.  On the code, after two
`handle_incident` calls for `"INC1"` from the initial state, the task map
holds the second task (id 1), not the first (id 0), even though the first
task (id 0) is still running, and a second bot task was spawned — the
existing session is not kept and no duplicate is ever reported. -/
theorem c1_counterexample :
    assocGet ((handle_incident cfgTest
        (handle_incident cfgTest AgentState.initial payloadNoReporter
          "aaaaaaaa").1 payloadNoReporter "bbbbbbbb").1).botTasks "INC1"
      = some 1
    ∧ assocGet ((handle_incident cfgTest
        (handle_incident cfgTest AgentState.initial payloadNoReporter
          "aaaaaaaa").1 payloadNoReporter "bbbbbbbb").1).botTasks "INC1"
      ≠ some 0
    ∧ 0 ∈ ((handle_incident cfgTest
        (handle_incident cfgTest AgentState.initial payloadNoReporter
          "aaaaaaaa").1 payloadNoReporter "bbbbbbbb").1).running
    ∧ Effect.spawnBotTask 1 "INC1-bbbbbbbb" "IncidentBot" ∈
        (handle_incident cfgTest
          (handle_incident cfgTest AgentState.initial payloadNoReporter
            "aaaaaaaa").1 payloadNoReporter "bbbbbbbb").2 := by
  decide

/-- C1, amended.  Registration is an unconditional check-free insert:
every `handle_incident` call stores its fresh task under the payload's
ticket id (overwriting any existing entry) and spawns a new bot session;
no duplicate detection exists, so registration also succeeds while an
earlier session for the same id is still running. -/
theorem c1_registration_always_succeeds (cfg : Config) (st : AgentState)
    (p : TicketPayload) (token : String) :
    assocGet ((handle_incident cfg st p token).1).botTasks p.ticket_id
      = some st.nextTask
    ∧ Effect.spawnBotTask st.nextTask (p.ticket_id ++ "-" ++ token)
        cfg.botDisplayName ∈ (handle_incident cfg st p token).2 := by
  constructor
  · rw [handle_incident_state]
    exact assocGet_assocSet_self st.botTasks p.ticket_id st.nextTask
  · obtain ⟨tail, ht⟩ := handle_incident_spawn_head cfg st p token
    rw [ht]
    exact List.mem_cons_self _ _

/-- C2, counterexample.  The claim says `handle_incident` returns before
the invite transport completes.  On the code, with credentials and
recipients present, the SMTP transmission is among the synchronous actions
`handle_incident` performs before returning (the call into
`send_invites_with_ics` is an ordinary blocking call, not a background
task). -/
theorem c2_counterexample :
    Effect.smtpSend "smtp.gmail.com" 587 ["b@x.com", "a@x.com"] ∈
      (handle_incident cfgTest AgentState.initial payloadINC1001
        "deadbeef").2 := by
  decide

/-- C2, amended.  `handle_incident` spawns the bot task without awaiting it
(so it returns before the session does anything, in particular before it
reaches Holding), but the invite dispatch is synchronous: with a non-empty
recipient list and credentials present, the SMTP transmission completes
before `handle_incident` returns.  Backgrounding relative to the HTTP
caller comes only from `create_ticket` scheduling `handle_incident` itself
as a background task. -/
theorem c2_amended (cfg : Config) (st : AgentState) (p : TicketPayload)
    (token : String) :
    Effect.spawnBotTask st.nextTask (p.ticket_id ++ "-" ++ token)
        cfg.botDisplayName ∈ (handle_incident cfg st p token).2
    ∧ (recipientsOf cfg p.reporter_email ≠ [] →
        optTruthy cfg.smtpUser = true → optTruthy cfg.smtpPassword = true →
        Effect.smtpSend cfg.smtpHost cfg.smtpPort
          (recipientsOf cfg p.reporter_email) ∈
          (handle_incident cfg st p token).2)
    ∧ (p.severity = 1 → (create_ticket p).2 = [p]) := by
  refine ⟨?_, ?_, ?_⟩
  · obtain ⟨tail, ht⟩ := handle_incident_spawn_head cfg st p token
    rw [ht]
    exact List.mem_cons_self _ _
  · intro hr hu hp
    cases hrec : recipientsOf cfg p.reporter_email with
    | nil => exact absurd hrec hr
    | cons a as =>
      simp [handle_incident, send_invites_with_ics, send_email, hrec, hu, hp]
  · intro h
    simp [create_ticket, h]

/-- C2, witness for the amended theorem at the spec's own scenario. -/
theorem c2_amended_witness :
    Effect.smtpSend cfgTest.smtpHost cfgTest.smtpPort
      (recipientsOf cfgTest payloadINC1001.reporter_email) ∈
      (handle_incident cfgTest AgentState.initial payloadINC1001
        "deadbeef").2 :=
  (c2_amended cfgTest AgentState.initial payloadINC1001 "deadbeef").2.1
    (by decide) (by decide) (by decide)

/-- C3, counterexample.  The claim says the launched browser is released on
every exit path, including errors during Launching/Joining.  On the code,
when `page.goto` raises (navigation error or timeout) the browser has been
launched but `browser.close()` never runs: the only `finally` that closes
it wraps the hold loop alone. -/
theorem c3_counterexample :
    (start_bot_and_hold BotEnv.gotoFails).browserAcquired = true
    ∧ (start_bot_and_hold BotEnv.gotoFails).releases = 0 := by
  decide

/-- C3, amended.  The browser is released at most once on every path, and
exactly once on every run that reaches the hold loop (cancellation from
Holding, including after swallowed preference errors, and however many
cancellation requests arrive); but on a run where an exception escapes
before the hold loop (launch, `newPage` or `goto` failure) it is never
released, so a launched browser leaks on those paths. -/
theorem c3_release_paths (env : BotEnv) :
    (start_bot_and_hold env).releases ≤ 1
    ∧ ((start_bot_and_hold env).reachedHold = true →
        (start_bot_and_hold env).releases = 1)
    ∧ ((start_bot_and_hold env).raised = true →
        (start_bot_and_hold env).releases = 0) := by
  cases env <;> simp [start_bot_and_hold]

/-- C3, witness: a clean run with five extra concurrent cancellation
requests still releases the browser exactly once. -/
theorem c3_release_paths_witness :
    (start_bot_and_hold (BotEnv.cleanRun 5)).releases = 1 :=
  (c3_release_paths (BotEnv.cleanRun 5)).2.1 rfl

/-- C4: an event whose severity is not 1 is acknowledged as ignored and
produces no effects — no background task is scheduled, hence no session is
registered and no invite is sent. -/
theorem c4_nonqualifying_noop (p : TicketPayload) (h : p.severity ≠ 1) :
    create_ticket p = (⟨"ignored", "Only Sev-1 triggers meeting."⟩, []) := by
  simp [create_ticket, h]

/-- C4, witness at severity 2. -/
theorem c4_nonqualifying_noop_witness :
    create_ticket { payloadINC1001 with severity := 2 } =
      (⟨"ignored", "Only Sev-1 triggers meeting."⟩, []) :=
  c4_nonqualifying_noop { payloadINC1001 with severity := 2 } (by decide)

/-- C5, counterexample.  The claim says each distinct address appears
exactly once in the recipient list handed to the invite dispatcher.  On
the code, a reporter address already present in the configured responder
list appears twice: the list handed to `send_invites_with_ics` is built by
appending, not by set union. -/
theorem c5_counterexample :
    (recipientsOf cfgDup payloadINC1001.reporter_email).count "a@x.com" = 2
    ∧ Effect.inviteDispatchCall ["a@x.com", "a@x.com"] ∈
        (handle_incident cfgDup AgentState.initial payloadINC1001
          "cafecafe").2 := by
  decide

/-- C5, amended.  At the level of membership (set union) the claim holds:
an address is in the computed recipient list exactly when it is a
configured responder or is a present, non-empty reporter address; but the
list may contain a duplicate, since the reporter is appended without
deduplication. -/
theorem c5_recipients_union (cfg : Config) (rep : Option String)
    (a : String) :
    a ∈ recipientsOf cfg rep ↔
      a ∈ cfg.devEmails ∨ (rep = some a ∧ a ≠ "") := by
  cases rep with
  | none => simp [recipientsOf, optTruthy]
  | some s =>
    by_cases hs : s = ""
    · subst hs
      simp [recipientsOf, optTruthy]
      intro h h'
      exact absurd h.symm h'
    · have h1 : optTruthy (some s) = true := by simp [optTruthy, hs]
      simp only [recipientsOf, h1, if_pos, Option.getD_some, List.mem_append,
        List.mem_singleton, Option.some.injEq]
      constructor
      · rintro (h | h)
        · exact Or.inl h
        · exact Or.inr ⟨h.symm, h ▸ hs⟩
      · rintro (h | ⟨h, _⟩)
        · exact Or.inl h
        · exact Or.inr h.symm

/-- C5, witness for the amended theorem: the reporter address is a member
of the recipient list even when it duplicates a configured responder. -/
theorem c5_recipients_union_witness :
    "a@x.com" ∈ recipientsOf cfgDup (some "a@x.com") :=
  (c5_recipients_union cfgDup (some "a@x.com") "a@x.com").mpr
    (Or.inr ⟨rfl, by decide⟩)

/-- C6: for every base URL and room id, the join URL produced by
`room_url` is the (trailing-slash-stripped) base, then `/`, then the
URL-encoded room id, then the literal mute-defaults query string — and on
a concrete room id containing a space and a slash the encoding behaves as
`quote_plus` does. -/
theorem c6_join_url :
    (∀ base room_id, (JitsiMeeting.init base).room_url room_id =
      joinUrlSpec (rstripSlash base) room_id)
    ∧ (JitsiMeeting.init "https://meet.jit.si").room_url "INC1001 a/b" =
        "https://meet.jit.si/INC1001+a%2Fb?config.startWithAudioMuted=true&config.startWithVideoMuted=true" :=
  ⟨fun _ _ => rfl, by decide⟩

/-- C7: when SMTP credentials are absent, `send_email` returns the logged
no-op result with no network effect (it is a total function — no
exception), the whole `handle_incident` call performs no SMTP
transmission, and the bot session launch still happens. -/
theorem c7_no_creds_noop (cfg : Config) (recipients : List String)
    (st : AgentState) (p : TicketPayload) (token : String)
    (h : optTruthy cfg.smtpUser = false ∨ optTruthy cfg.smtpPassword = false) :
    send_email cfg recipients = (SendResult.skippedNoCreds, [])
    ∧ (∀ host port rs, Effect.smtpSend host port rs ∉
        (handle_incident cfg st p token).2)
    ∧ Effect.spawnBotTask st.nextTask (p.ticket_id ++ "-" ++ token)
        cfg.botDisplayName ∈ (handle_incident cfg st p token).2 := by
  have hse : ∀ rs, send_email cfg rs = (SendResult.skippedNoCreds, []) := by
    intro rs
    rcases h with hu | hp
    · simp [send_email, hu]
    · simp [send_email, hp]
  refine ⟨hse recipients, ?_, ?_⟩
  · intro host port rs hmem
    by_cases hr : (recipientsOf cfg p.reporter_email).isEmpty = true
    · simp [handle_incident, send_invites_with_ics, hse, hr] at hmem
    · rw [Bool.not_eq_true] at hr
      simp [handle_incident, send_invites_with_ics, hse, hr] at hmem
  · obtain ⟨tail, ht⟩ := handle_incident_spawn_head cfg st p token
    rw [ht]
    exact List.mem_cons_self _ _

/-- C7, witness with both credentials unset. -/
theorem c7_no_creds_noop_witness :
    send_email cfgNoCreds ["b@x.com"] = (SendResult.skippedNoCreds, []) :=
  (c7_no_creds_noop cfgNoCreds ["b@x.com"] AgentState.initial payloadINC1001
    "deadbeef" (Or.inl (by decide))).1

/-- C8: when the computed recipient list is empty, `handle_incident`'s only
synchronous effect is spawning the bot task — the invite dispatcher is
never invoked, no SMTP transmission happens, and the call completes
normally with the usual state update. -/
theorem c8_empty_recipients (cfg : Config) (st : AgentState)
    (p : TicketPayload) (token : String)
    (h : recipientsOf cfg p.reporter_email = []) :
    (handle_incident cfg st p token).2 =
      [Effect.spawnBotTask st.nextTask (p.ticket_id ++ "-" ++ token)
        cfg.botDisplayName]
    ∧ (∀ rs, Effect.inviteDispatchCall rs ∉
        (handle_incident cfg st p token).2)
    ∧ (handle_incident cfg st p token).1 =
        { botTasks := assocSet st.botTasks p.ticket_id st.nextTask
          running := st.running ++ [st.nextTask]
          nextTask := st.nextTask + 1 } := by
  have he : (handle_incident cfg st p token).2 =
      [Effect.spawnBotTask st.nextTask (p.ticket_id ++ "-" ++ token)
        cfg.botDisplayName] := by
    simp [handle_incident, h]
  refine ⟨he, ?_, handle_incident_state cfg st p token⟩
  intro rs hmem
  rw [he] at hmem
  simp at hmem

/-- C8, witness: no configured responders and no reporter address. -/
theorem c8_empty_recipients_witness :
    (handle_incident cfgNoResponders AgentState.initial payloadNoReporter
      "deadbeef").2 =
      [Effect.spawnBotTask AgentState.initial.nextTask
        (payloadNoReporter.ticket_id ++ "-" ++ "deadbeef")
        cfgNoResponders.botDisplayName] :=
  (c8_empty_recipients cfgNoResponders AgentState.initial payloadNoReporter
    "deadbeef" (by decide)).1

/-- C9: `handle_incident` never inspects the severity field — its result is
unchanged under any severity value, and it always spawns a bot session for
the room it built; the severity gate exists only in the intake endpoint
`create_ticket`, which schedules nothing exactly when severity ≠ 1. -/
theorem c9_severity_gate_only_at_intake (cfg : Config) (st : AgentState)
    (p : TicketPayload) (token : String) (sev : Int) :
    handle_incident cfg st { p with severity := sev } token =
      handle_incident cfg st p token
    ∧ Effect.spawnBotTask st.nextTask (p.ticket_id ++ "-" ++ token)
        cfg.botDisplayName ∈ (handle_incident cfg st p token).2
    ∧ ((create_ticket p).2 = [] ↔ p.severity ≠ 1) := by
  refine ⟨rfl, ?_, ?_⟩
  · obtain ⟨tail, ht⟩ := handle_incident_spawn_head cfg st p token
    rw [ht]
    exact List.mem_cons_self _ _
  · by_cases h : p.severity = 1 <;> simp [create_ticket, h]

/-- C9, witness: a severity-5 payload passed directly to the handler still
spawns a bot session, while the intake endpoint schedules nothing for it. -/
theorem c9_severity_gate_witness :
    Effect.spawnBotTask AgentState.initial.nextTask
      (payloadINC1001.ticket_id ++ "-" ++ "deadbeef")
      cfgTest.botDisplayName ∈
      (handle_incident cfgTest AgentState.initial payloadINC1001 "deadbeef").2
    ∧ (create_ticket { payloadINC1001 with severity := 5 }).2 = [] :=
  ⟨(c9_severity_gate_only_at_intake cfgTest AgentState.initial payloadINC1001
      "deadbeef" 0).2.1,
    (c9_severity_gate_only_at_intake cfgTest AgentState.initial
      { payloadINC1001 with severity := 5 } "deadbeef" 0).2.2.mpr (by decide)⟩

/-- C10: a second `handle_incident` call with the same ticket id overwrites
the task-map entry with the new task id while the first task remains in the
running set (nothing cancels it), and the map no longer points at the first
task. -/
theorem c10_second_call_overwrites (cfg : Config) (st : AgentState)
    (p : TicketPayload) (tok1 tok2 : String) :
    assocGet ((handle_incident cfg (handle_incident cfg st p tok1).1 p
        tok2).1).botTasks p.ticket_id = some (st.nextTask + 1)
    ∧ st.nextTask ∈ ((handle_incident cfg (handle_incident cfg st p tok1).1
        p tok2).1).running
    ∧ some (st.nextTask + 1) ≠ some st.nextTask := by
  have h1 := handle_incident_state cfg st p tok1
  have h2 := handle_incident_state cfg (handle_incident cfg st p tok1).1 p
    tok2
  refine ⟨?_, ?_, by simp⟩
  · rw [h2, h1]
    exact assocGet_assocSet_self _ _ _
  · rw [h2, h1]
    simp

/-- C10, witness at a concrete pair of calls. -/
theorem c10_second_call_overwrites_witness :
    assocGet ((handle_incident cfgTest
        (handle_incident cfgTest AgentState.initial payloadINC1001
          "aaaaaaaa").1 payloadINC1001 "bbbbbbbb").1).botTasks
      payloadINC1001.ticket_id = some (AgentState.initial.nextTask + 1) :=
  (c10_second_call_overwrites cfgTest AgentState.initial payloadINC1001
    "aaaaaaaa" "bbbbbbbb").1

end SevOneTicket
